import Mathlib

/-!
Verification of the viral-content analyzer (`src/services/viral_content_analyzer.py`).

The Python module is embedded shallowly: text is modelled as `List Char`
(Python `str.lower()` becomes a character-wise `Char.toLower` map), floating
point scores become exact rationals `ℚ`, dictionaries with a fixed literal key
set become structures, and the per-item exception handling of the pipeline is
modelled with `Except String`.
-/

namespace ViralAnalyzer

/-- Character-wise lowercasing, the model of Python `str.lower()`. -/
def toLowerStr (s : List Char) : List Char := s.map Char.toLower

/-- Boolean prefix test on character lists. -/
def listIsPrefix : List Char → List Char → Bool
  | [], _ => true
  | _ :: _, [] => false
  | a :: as, b :: bs => a == b && listIsPrefix as bs

/-- `containsSub hay needle` models Python `needle in hay` (substring test). -/
def containsSub (hay needle : List Char) : Bool :=
  match hay with
  | [] => listIsPrefix needle []
  | c :: t => listIsPrefix needle (c :: t) || containsSub t needle

/-- The ordered domain-fragment table of `_identify_platform`, flattened:
the source's `elif` chain with `or`-conditions, in source order. -/
def platformFragments : List (List Char × String) :=
  [("instagram.com".toList, "instagram"),
   ("youtube.com".toList, "youtube"), ("youtu.be".toList, "youtube"),
   ("facebook.com".toList, "facebook"), ("fb.com".toList, "facebook"),
   ("twitter.com".toList, "twitter"), ("x.com".toList, "twitter"),
   ("tiktok.com".toList, "tiktok"),
   ("linkedin.com".toList, "linkedin")]

/-- Embedding of `_identify_platform`: lowercase the URL, then an
`if`/`elif` chain of substring tests, `None` when nothing matches. -/
def identifyPlatform (url : List Char) : Option String :=
  let u := toLowerStr url
  if containsSub u "instagram.com".toList then some "instagram"
  else if containsSub u "youtube.com".toList || containsSub u "youtu.be".toList then some "youtube"
  else if containsSub u "facebook.com".toList || containsSub u "fb.com".toList then some "facebook"
  else if containsSub u "twitter.com".toList || containsSub u "x.com".toList then some "twitter"
  else if containsSub u "tiktok.com".toList then some "tiktok"
  else if containsSub u "linkedin.com".toList then some "linkedin"
  else none

/-- First fragment of the ordered table that occurs in `u`, if any. -/
def firstMatchIn (u : List Char) : List (List Char × String) → Option String
  | [] => none
  | f :: fs => if containsSub u f.1 then some f.2 else firstMatchIn u fs

/-- Specification-side classifier: case-insensitive substring match against
the fixed ordered fragment list, first match wins; no match means
unrecognized. -/
def identifyPlatformSpec (url : List Char) : Option String :=
  firstMatchIn (toLowerStr url) platformFragments

/-! ### Candidate filter and initial score -/

/-- An input search-result record.  The Python record is a loose dict; the
fields used by the analyzer are `url`, `title` and `description`, the latter
two defaulted to `''` by `result.get(...)`, so they are total here. -/
structure SearchResult where
  url : List Char
  title : List Char
  description : List Char
deriving DecidableEq

/-- `f"{title} {description}".lower()`, the text both heuristics scan. -/
def resultText (title description : List Char) : List Char :=
  toLowerStr (title ++ ' ' :: description)

/-- Numeric value of a digit character. -/
def digitVal (c : Char) : Nat := c.toNat - 48

/-- Helper of `extractNumbers`: walks the text, carrying the value of the
digit run currently being read (`some n`) or nothing (`none`). -/
def extractAux : List Char → Option Nat → List Nat
  | [], none => []
  | [], some n => [n]
  | c :: cs, none =>
    if c.isDigit then extractAux cs (some (digitVal c)) else extractAux cs none
  | c :: cs, some n =>
    if c.isDigit then extractAux cs (some (10 * n + digitVal c))
    else n :: extractAux cs none

/-- The values of all maximal digit runs, left to right: the model of
`re.findall(r'\d+', text)` followed by `int(num)`. -/
def extractNumbers (l : List Char) : List Nat := extractAux l none

/-- The filter's keyword list of `_is_potentially_viral`, in source order. -/
def filterKeywords : List (List Char) :=
  ["viral".toList, "trending".toList, "popular".toList, "milhões".toList,
   "millions".toList, "views".toList, "visualizações".toList, "curtidas".toList,
   "likes".toList, "shares".toList, "compartilhamentos".toList,
   "comentários".toList, "comments".toList]

/-- Embedding of `_is_potentially_viral`: a viral keyword occurs in the
title/description text, or some embedded integer literal exceeds 1000. -/
def isPotentiallyViral (r : SearchResult) (_platform : String) : Bool :=
  let text := resultText r.title r.description
  let hasViralKeywords := filterKeywords.any (fun kw => containsSub text kw)
  let hasLargeNumbers := (extractNumbers text).any (fun n => decide (n > 1000))
  hasViralKeywords || hasLargeNumbers

/-- The keyword-weight dict of `_calculate_initial_score`, in literal order. -/
def keywordWeights : List (List Char × ℚ) :=
  [("viral".toList, 10), ("trending".toList, 8), ("popular".toList, 6),
   ("milhões".toList, 15), ("millions".toList, 15),
   ("views".toList, 5), ("visualizações".toList, 5),
   ("curtidas".toList, 3), ("likes".toList, 3)]

/-- Embedding of `_calculate_initial_score`: keyword-weight loop, then the
per-number magnitude-tier loop, then `min(score, 100.0)`. -/
def calculateInitialScore (r : SearchResult) (_platform : String) : ℚ :=
  let text := resultText r.title r.description
  let s1 := keywordWeights.foldl
    (fun s kw => if containsSub text kw.1 then s + kw.2 else s) 0
  let s2 := (extractNumbers text).foldl
    (fun s v =>
      if v > 1000000 then s + 20
      else if v > 100000 then s + 15
      else if v > 10000 then s + 10
      else if v > 1000 then s + 5
      else s) s1
  min s2 100

/-- The magnitude bonus a single embedded number contributes (the tier
`elif` chain of the number loop, read off as a value). -/
def numberBonus (v : Nat) : ℚ :=
  if v > 1000000 then 20
  else if v > 100000 then 15
  else if v > 10000 then 10
  else if v > 1000 then 5
  else 0

/-- Initial score written the way the specification describes it: the sum of
the weights of the keywords present (each keyword counted at most once, being
one summand per table entry) plus the sum of per-number magnitude bonuses,
clamped by 100. -/
def initialScoreSpec (r : SearchResult) : ℚ :=
  let text := resultText r.title r.description
  let kwSum := (keywordWeights.map (fun kw => if containsSub text kw.1 then kw.2 else 0)).sum
  let numSum := ((extractNumbers text).map numberBonus).sum
  min (kwSum + numSum) 100

/-! ### Analysis records, viral score -/

/-- A per-item enriched analysis record.  Fields a given Python record lacks
are read with `.get(field, 0)` / defaulted `getattr`, so they are total here
with the default as value.  Scrape-only metadata that feeds no computation
(caption, owner, timestamps) is omitted. -/
structure Analysis where
  url : List Char
  platform : String
  title : List Char
  description : List Char
  likes : ℚ
  comments : ℚ
  views : ℚ
  engagement_rate : ℚ
  hashtags : List String
  mentions : List String
  viral_score : ℚ
  analysis_method : String
deriving DecidableEq

/-- Embedding of `_calculate_viral_score` with the `viral_thresholds` table
values inlined (instagram: min_likes 1000, min_comments 50, engagement_rate
0.03; youtube: min_views 10000, min_likes 500, min_comments 50); `0.5` of the
source is the exact rational `1/2`. -/
def calculateViralScore (a : Analysis) (platform : String) : ℚ :=
  let score : ℚ :=
    if platform = "instagram" then
      (if a.likes ≥ 1000 then (30 : ℚ)
       else if a.likes ≥ 1000 * (1/2 : ℚ) then 15 else 0)
      + (if a.comments ≥ 50 then (20 : ℚ)
         else if a.comments ≥ 50 * (1/2 : ℚ) then 10 else 0)
      + (if a.engagement_rate ≥ (3/100 : ℚ) * 100 then (25 : ℚ)
         else if a.engagement_rate ≥ (3/100 : ℚ) * 50 then 15 else 0)
      + min ((a.hashtags.length : ℚ) * 2) 10
      + min ((a.mentions.length : ℚ) * 3) 15
    else if platform = "youtube" then
      (if a.views ≥ 10000 then (40 : ℚ)
       else if a.views ≥ 10000 * (1/2 : ℚ) then 20 else 0)
      + (if a.likes ≥ 500 then (20 : ℚ)
         else if a.likes ≥ 500 * (1/2 : ℚ) then 10 else 0)
      + (if a.comments ≥ 50 then (15 : ℚ)
         else if a.comments ≥ 50 * (1/2 : ℚ) then 8 else 0)
    else 0
  min score 100

/-! ### YouTube view-count parsing -/

/-- Maximal leading digit run and the remainder. -/
def spanDigits : List Char → List Char × List Char
  | [] => ([], [])
  | c :: cs =>
    if c.isDigit then
      let (ds, r) := spanDigits cs
      (c :: ds, r)
    else ([], c :: cs)

/-- Value of a digit string. -/
def digitsToNat (ds : List Char) : Nat := ds.foldl (fun n c => 10 * n + digitVal c) 0

/-- The unit-word alternatives of the pattern
`(\d+(?:\.\d+)?)\s*(?:million|milhão|mil|k|thousand)`, in alternation order. -/
def unitWords : List (List Char) :=
  ["million".toList, "milhão".toList, "mil".toList, "k".toList, "thousand".toList]

/-- Attempt the number-with-unit pattern at the head of `l`: a nonempty digit
run, an optional fractional part, any whitespace, then a unit word.  Returns
the numeric value of the captured group and the unit word matched. -/
def matchAt (l : List Char) : Option (ℚ × List Char) :=
  let (ds, r1) := spanDigits l
  if ds.isEmpty then none
  else
    let (value, r2) : ℚ × List Char :=
      match r1 with
      | '.' :: rest =>
        let (fs, r3) := spanDigits rest
        if fs.isEmpty then (((digitsToNat ds : Nat) : ℚ), r1)
        else (((digitsToNat ds : Nat) : ℚ) + ((digitsToNat fs : Nat) : ℚ) / (10 ^ fs.length : ℚ), r3)
      | _ => (((digitsToNat ds : Nat) : ℚ), r1)
    let r4 := r2.dropWhile Char.isWhitespace
    match unitWords.find? (fun u => u.isPrefixOf r4) with
    | some u => some (value, u)
    | none => none

/-- Leftmost match of the number-with-unit pattern: the scan of
`re.findall`, of which the source uses only the first match. -/
def findFirstMatch : List Char → Option (ℚ × List Char)
  | [] => none
  | c :: cs =>
    match matchAt (c :: cs) with
    | some m => some m
    | none => findFirstMatch cs

/-- Truncation of a nonnegative rational to a natural number, the model of
Python `int()` on the (nonnegative) parsed view count. -/
def ratToNatFloor (q : ℚ) : Nat := q.num.toNat / q.den

/-- Embedding of the view-count extraction of `_analyze_youtube_video`: the
first match's captured number, multiplied by 1000000 if the whole lowered
text contains `million` or `milhão`, else by 1000 if it contains `mil`, `k`
or `thousand` (the source tests the whole `text_content.lower()`, not the
matched unit). -/
def youtubeViews (title description : List Char) : Nat :=
  let text := toLowerStr (title ++ ' ' :: description)
  match findFirstMatch text with
  | none => 0
  | some (v, _) =>
    let m : ℚ :=
      if containsSub text "million".toList || containsSub text "milhão".toList then
        v * 1000000
      else if containsSub text "mil".toList || containsSub text "k".toList
          || containsSub text "thousand".toList then
        v * 1000
      else v
    ratToNatFloor m

/-- Modelled from the spec: the claimed view-count semantics in which the
×1,000,000 or ×1,000 multiplier is "determined by the unit text of that
match" — `million`/`milhão` as the matched unit mean millions, the other
unit words mean thousands.  Used to compare against `youtubeViews`. -/
def youtubeViewsByMatchedUnit (title description : List Char) : Nat :=
  let text := toLowerStr (title ++ ' ' :: description)
  match findFirstMatch text with
  | none => 0
  | some (v, u) =>
    if u = "million".toList || u = "milhão".toList then ratToNatFloor (v * 1000000)
    else ratToNatFloor (v * 1000)

/-! ### Enrichment adapter and platform buckets -/

/-- A filtered candidate as built by `_identify_viral_content`. -/
structure Candidate where
  url : List Char
  platform : String
  source : String
  title : List Char
  description : List Char
  initial_score : ℚ
deriving DecidableEq

/-- The `platform_analysis` dict: its literal keys, in insertion order
`instagram, youtube, facebook, twitter, tiktok, other`. -/
structure PlatformBuckets where
  instagram : List Analysis
  youtube : List Analysis
  facebook : List Analysis
  twitter : List Analysis
  tiktok : List Analysis
  other : List Analysis
deriving DecidableEq

/-- The freshly initialised `platform_analysis` dict of empty lists. -/
def emptyBuckets : PlatformBuckets := ⟨[], [], [], [], [], []⟩

/-- `platform_analysis.get(platform, platform_analysis['other']).append(a)`:
the bucket named by `platform` when it is a key of the dict, the `other`
bucket otherwise. -/
def appendToBucket (pa : PlatformBuckets) (platform : String) (a : Analysis) : PlatformBuckets :=
  if platform = "instagram" then { pa with instagram := pa.instagram ++ [a] }
  else if platform = "youtube" then { pa with youtube := pa.youtube ++ [a] }
  else if platform = "facebook" then { pa with facebook := pa.facebook ++ [a] }
  else if platform = "twitter" then { pa with twitter := pa.twitter ++ [a] }
  else if platform = "tiktok" then { pa with tiktok := pa.tiktok ++ [a] }
  else { pa with other := pa.other ++ [a] }

/-- All bucket contents flattened, in the dict's key insertion order — the
`all_content` list that `_get_top_performers` and the aggregator build. -/
def paItems (pa : PlatformBuckets) : List Analysis :=
  pa.instagram ++ pa.youtube ++ pa.facebook ++ pa.twitter ++ pa.tiktok ++ pa.other

/-- Embedding of `_basic_url_analysis`: the pass-through record; fields the
Python dict lacks carry their `.get` defaults. -/
def basicUrlAnalysis (c : Candidate) : Analysis :=
  { url := c.url
    platform := c.platform
    title := c.title
    description := c.description
    likes := 0
    comments := 0
    views := 0
    engagement_rate := 0
    hashtags := []
    mentions := []
    viral_score := c.initial_score
    analysis_method := "basic_fallback" }

/-- Embedding of `_basic_analysis_fallback`: every candidate's basic record,
routed by `platform_analysis.get(platform, ...['other'])`. -/
def basicAnalysisFallback (cands : List Candidate) : PlatformBuckets :=
  cands.foldl (fun pa c => appendToBucket pa c.platform (basicUrlAnalysis c)) emptyBuckets

/-- Embedding of `_analyze_youtube_video` (always the basic path; instascrape
has no YouTube support): `viral_score` is the candidate's `initial_score` and
`views` comes from the number-with-unit parse. -/
def analyzeYoutubeVideo (c : Candidate) : Analysis :=
  { url := c.url
    platform := "youtube"
    title := c.title
    description := c.description
    likes := 0
    comments := 0
    views := (youtubeViews c.title c.description : ℚ)
    engagement_rate := 0
    hashtags := []
    mentions := []
    viral_score := c.initial_score
    analysis_method := "basic_fallback" }

/-- Embedding of `_analyze_with_instascrape`.  The external Instagram scrape
is an oracle `instaResult` (`none` models a scrape exception, after which the
item is dropped); with the dependency absent every candidate goes through
`basicAnalysisFallback`. -/
def analyzeWithInstascrape (hasInstascrape : Bool)
    (instaResult : Candidate → Option Analysis)
    (cands : List Candidate) : PlatformBuckets :=
  if !hasInstascrape then basicAnalysisFallback cands
  else
    cands.foldl (fun pa c =>
      if c.platform = "instagram" then
        match instaResult c with
        | some a => { pa with instagram := pa.instagram ++ [a] }
        | none => pa
      else if c.platform = "youtube" then
        { pa with youtube := pa.youtube ++ [analyzeYoutubeVideo c] }
      else appendToBucket pa c.platform (basicUrlAnalysis c)) emptyBuckets

/-! ### Top performers -/

/-- Stable descending insertion by `viral_score`: `x` lands in front of the
first element whose score does not exceed `x`'s. -/
def insertDesc (x : Analysis) : List Analysis → List Analysis
  | [] => [x]
  | y :: ys => if y.viral_score ≤ x.viral_score then x :: y :: ys else y :: insertDesc x ys

/-- Stable descending sort by `viral_score`.  Python's
`sorted(..., key=viral_score, reverse=True)` is a stable descending sort, and
every stable sort of a list under the same order produces the same output, so
this insertion sort is its embedding. -/
def sortDesc : List Analysis → List Analysis
  | [] => []
  | x :: xs => insertDesc x (sortDesc xs)

/-- Embedding of `_get_top_performers`: all bucket contents, sorted stably by
descending `viral_score`, truncated to `top_n` (default 10). -/
def getTopPerformers (pa : PlatformBuckets) (top_n : Nat := 10) : List Analysis :=
  (sortDesc (paItems pa)).take top_n

/-! ### Top-level pipeline -/

/-- The flags of the returned `analysis_results` dict that the error-handling
claim is about, plus whether `_save_analysis_results` was reached. -/
structure AnalyzeOutcome where
  success : Bool
  error : Option String
  saveAttempted : Bool
deriving DecidableEq

/-- Embedding of the `try`/`except` of `analyze_and_capture_viral_content`.
The three fallible phases (identification, instascrape analysis, metrics and
insights) are step parameters returning `Except String`; an uncaught
exception anywhere aborts to the `except` branch, which records the message
and leaves `success` false, and the save — which swallows its own errors — is
reached only after `success` is set true. -/
def analyzePipeline (identifyStep : Except String (List Candidate))
    (analyzeStep : List Candidate → Except String PlatformBuckets)
    (metricsStep : PlatformBuckets → Except String Unit) : AnalyzeOutcome :=
  match identifyStep with
  | .error e => { success := false, error := some e, saveAttempted := false }
  | .ok cands =>
    match analyzeStep cands with
    | .error e => { success := false, error := some e, saveAttempted := false }
    | .ok buckets =>
      match metricsStep buckets with
      | .error e => { success := false, error := some e, saveAttempted := false }
      | .ok _ => { success := true, error := none, saveAttempted := true }

/-! ## Helper lemmas -/

theorem foldl_ite_add (text : List Char) (l : List (List Char × ℚ)) (init : ℚ) :
    l.foldl (fun s kw => if containsSub text kw.1 then s + kw.2 else s) init
      = init + (l.map (fun kw => if containsSub text kw.1 then kw.2 else 0)).sum := by
  induction l generalizing init with
  | nil => simp
  | cons a t ih =>
    by_cases h : containsSub text a.1 <;> simp [h, ih, add_assoc]

theorem foldl_tier_add (l : List Nat) (init : ℚ) :
    l.foldl (fun s v =>
      if v > 1000000 then s + 20
      else if v > 100000 then s + 15
      else if v > 10000 then s + 10
      else if v > 1000 then s + 5
      else s) init
      = init + (l.map numberBonus).sum := by
  induction l generalizing init with
  | nil => simp
  | cons a t ih =>
    simp only [List.foldl_cons, List.map_cons, List.sum_cons, numberBonus]
    split_ifs <;> rw [ih] <;> ring

theorem initialScore_eq (r : SearchResult) (p : String) :
    calculateInitialScore r p = initialScoreSpec r := by
  simp only [calculateInitialScore, initialScoreSpec]
  rw [foldl_ite_add, foldl_tier_add, zero_add]

theorem numberBonus_nonneg (v : Nat) : 0 ≤ numberBonus v := by
  unfold numberBonus
  split_ifs <;> norm_num

theorem kwSum_nonneg (text : List Char) :
    0 ≤ (keywordWeights.map (fun kw => if containsSub text kw.1 then kw.2 else 0)).sum := by
  apply List.sum_nonneg
  intro x hx
  simp only [List.mem_map] at hx
  obtain ⟨kw, hkw, rfl⟩ := hx
  have hw : 0 ≤ kw.2 := by
    fin_cases hkw <;> norm_num
  split_ifs <;> simp [hw]

theorem numSum_nonneg (l : List Nat) : 0 ≤ (l.map numberBonus).sum := by
  apply List.sum_nonneg
  intro x hx
  simp only [List.mem_map] at hx
  obtain ⟨v, _, rfl⟩ := hx
  exact numberBonus_nonneg v

theorem initialScoreSpec_nonneg (r : SearchResult) : 0 ≤ initialScoreSpec r := by
  unfold initialScoreSpec
  exact le_min (add_nonneg (kwSum_nonneg _) (numSum_nonneg _)) (by norm_num)

theorem viralScore_nonneg (a : Analysis) (p : String) : 0 ≤ calculateViralScore a p := by
  unfold calculateViralScore
  refine le_min ?_ (by norm_num)
  split_ifs <;> positivity

/-! ## Claim theorems -/

/-- C1: for every input record and every enriched analysis record — fields
empty or defaulted included, since every field is universally quantified —
`_calculate_initial_score` and `_calculate_viral_score` return a value
within [0,100]. -/
theorem c1_scores_within_bounds (r : SearchResult) (p : String) (a : Analysis) (q : String) :
    0 ≤ calculateInitialScore r p ∧ calculateInitialScore r p ≤ 100
    ∧ 0 ≤ calculateViralScore a q ∧ calculateViralScore a q ≤ 100 := by
  refine ⟨?_, ?_, viralScore_nonneg a q, ?_⟩
  · rw [initialScore_eq]
    exact initialScoreSpec_nonneg r
  · rw [initialScore_eq]
    unfold initialScoreSpec
    exact min_le_right _ _
  · unfold calculateViralScore
    exact min_le_right _ _

/-- C3: the initial score equals the sum of the fixed keyword weights (one
summand per table entry, so each keyword counts at most once) plus the
per-matched-number magnitude-tier bonuses, accumulated over all matched
numbers, the whole sum clamped to [0,100]. -/
theorem c3_initial_score_formula (r : SearchResult) (p : String) :
    calculateInitialScore r p = initialScoreSpec r
    ∧ 0 ≤ initialScoreSpec r ∧ initialScoreSpec r ≤ 100 :=
  ⟨initialScore_eq r p, initialScoreSpec_nonneg r, min_le_right _ _⟩

theorem firstMatchIn_eq_none_iff (u : List Char) (L : List (List Char × String)) :
    firstMatchIn u L = none ↔ ∀ f ∈ L, containsSub u f.1 = false := by
  induction L with
  | nil => simp [firstMatchIn]
  | cons f fs ih =>
    by_cases h : containsSub u f.1 <;> simp [firstMatchIn, h, ih]

theorem identifyPlatform_eq_spec (url : List Char) :
    identifyPlatform url = identifyPlatformSpec url := by
  simp only [identifyPlatform, identifyPlatformSpec, platformFragments, firstMatchIn]
  by_cases h1 : containsSub (toLowerStr url) "instagram.com".toList
  · simp_all
  by_cases h2 : containsSub (toLowerStr url) "youtube.com".toList
  · simp_all
  by_cases h3 : containsSub (toLowerStr url) "youtu.be".toList
  · simp_all
  by_cases h4 : containsSub (toLowerStr url) "facebook.com".toList
  · simp_all
  by_cases h5 : containsSub (toLowerStr url) "fb.com".toList
  · simp_all
  by_cases h6 : containsSub (toLowerStr url) "twitter.com".toList
  · simp_all
  by_cases h7 : containsSub (toLowerStr url) "x.com".toList
  · simp_all
  by_cases h8 : containsSub (toLowerStr url) "tiktok.com".toList
  · simp_all
  by_cases h9 : containsSub (toLowerStr url) "linkedin.com".toList <;> simp_all

/-- C4: the classifier is exactly first-match, case-insensitive substring
matching over the fixed ordered fragment list — a URL containing a known
fragment maps to that fragment's platform (the first in table order), and a
URL containing none maps to `none` (unrecognized). -/
theorem c4_platform_classifier (url : List Char) :
    identifyPlatform url = identifyPlatformSpec url
    ∧ (identifyPlatform url = none
        ↔ ∀ f ∈ platformFragments, containsSub (toLowerStr url) f.1 = false) := by
  refine ⟨identifyPlatform_eq_spec url, ?_⟩
  rw [identifyPlatform_eq_spec url]
  exact firstMatchIn_eq_none_iff _ _

/-- Witness for C4 at a concrete unrecognized URL. -/
theorem c4_platform_classifier_witness :
    identifyPlatform "https://example.org/page".toList = none :=
  (c4_platform_classifier "https://example.org/page".toList).2.mpr (by decide)

/-- C2 counterexample: for the title `"10 k video of a million ideas"` the
first (and only) number-with-unit match is `10` with unit text `k`, so under
the claimed matched-unit semantics the views would be 10 × 1,000 = 10,000;
the code scans the whole text, finds `million`, and yields 10,000,000. -/
theorem c2_counterexample_views :
    youtubeViews "10 k video of a million ideas".toList [] = 10000000
    ∧ youtubeViewsByMatchedUnit "10 k video of a million ideas".toList [] = 10000
    ∧ (findFirstMatch (toLowerStr ("10 k video of a million ideas".toList ++ ' ' :: []))).map
        Prod.snd = some "k".toList := by
  have h : findFirstMatch (toLowerStr ("10 k video of a million ideas".toList ++ ' ' :: []))
      = some (((10 : Nat) : ℚ), "k".toList) := by decide
  refine ⟨?_, ?_, by rw [h]; rfl⟩
  · have hm : containsSub (toLowerStr ("10 k video of a million ideas".toList ++ ' ' :: []))
        "million".toList = true := by decide
    simp only [youtubeViews, h, hm, Bool.true_or, if_true]
    norm_num [ratToNatFloor]
    decide
  · simp only [youtubeViewsByMatchedUnit, h]
    rw [if_neg (by decide)]
    norm_num [ratToNatFloor]
    decide

/-- C2 amended: the approximate view count is the first number-with-unit
match's number, but the multiplier is decided by searching the whole lowered
text — ×1,000,000 when it contains `million` or `milhão`, else ×1,000 when it
contains `mil`, `k` or `thousand` — not by the unit text of the match. -/
theorem c2_amended_views (title desc : List Char) (v : ℚ) (u : List Char)
    (h : findFirstMatch (toLowerStr (title ++ ' ' :: desc)) = some (v, u)) :
    youtubeViews title desc =
      (if containsSub (toLowerStr (title ++ ' ' :: desc)) "million".toList
          || containsSub (toLowerStr (title ++ ' ' :: desc)) "milhão".toList then
        ratToNatFloor (v * 1000000)
      else if containsSub (toLowerStr (title ++ ' ' :: desc)) "mil".toList
          || containsSub (toLowerStr (title ++ ' ' :: desc)) "k".toList
          || containsSub (toLowerStr (title ++ ' ' :: desc)) "thousand".toList then
        ratToNatFloor (v * 1000)
      else ratToNatFloor v) := by
  simp only [youtubeViews, h]
  simp only [apply_ite ratToNatFloor]

/-- Witness for C2 amended, which is also the spec's scenario: the YouTube
title `"10 million views video"` parses to 10,000,000 views. -/
theorem c2_amended_views_witness :
    youtubeViews "10 million views video".toList [] = 10000000 := by
  have h : findFirstMatch (toLowerStr ("10 million views video".toList ++ ' ' :: []))
      = some (((10 : Nat) : ℚ), "million".toList) := by decide
  rw [c2_amended_views _ _ _ _ h, if_pos (by decide)]
  norm_num [ratToNatFloor]
  decide

/-- The Instagram analysis record of the spec's scenario: likes 2000,
comments 100, engagement rate 5, five hashtags, two mentions. -/
def instaSample : Analysis :=
  { url := "https://instagram.com/p/abc".toList
    platform := "instagram"
    title := "post".toList
    description := []
    likes := 2000
    comments := 100
    views := 0
    engagement_rate := 5
    hashtags := ["a", "b", "c", "d", "e"]
    mentions := ["x", "y"]
    viral_score := 0
    analysis_method := "instascrape" }

/-- C7: the Instagram formula gives the scenario record score
30 + 20 + 25 + 10 + 6 = 91, and its result never exceeds the 100 clamp. -/
theorem c7_instagram_scenario :
    calculateViralScore instaSample "instagram" = 91
    ∧ ∀ a : Analysis, calculateViralScore a "instagram" ≤ 100 := by
  constructor
  · norm_num [calculateViralScore, instaSample]
  · intro a
    unfold calculateViralScore
    exact min_le_right _ _

/-- A search result whose text holds only the filter-only keyword `shares`
and no number: promoted with initial score 0. -/
def sharesSample : SearchResult :=
  ⟨"https://facebook.com/x".toList, "shares".toList, []⟩

/-- C10: the filter's keyword list strictly contains the weight table's keys
(`shares`, `compartilhamentos`, `comentários`, `comments` are filter-only),
and the concrete result `sharesSample` is classified, passes the filter, yet
scores 0. -/
theorem c10_filter_superset_zero_score :
    (∀ kw ∈ keywordWeights, kw.1 ∈ filterKeywords)
    ∧ ("shares".toList ∈ filterKeywords ∧ "compartilhamentos".toList ∈ filterKeywords
        ∧ "comentários".toList ∈ filterKeywords ∧ "comments".toList ∈ filterKeywords)
    ∧ (∀ kw ∈ keywordWeights,
        kw.1 ≠ "shares".toList ∧ kw.1 ≠ "compartilhamentos".toList
        ∧ kw.1 ≠ "comentários".toList ∧ kw.1 ≠ "comments".toList)
    ∧ identifyPlatform sharesSample.url = some "facebook"
    ∧ isPotentiallyViral sharesSample "facebook" = true
    ∧ calculateInitialScore sharesSample "facebook" = 0 := by
  exact ⟨by decide, by decide, by decide, by decide, by decide, by decide⟩

/-- Witness for C10 at the concrete weighted keyword `viral`. -/
theorem c10_filter_superset_zero_score_witness :
    ("viral".toList, (10 : ℚ)).1 ∈ filterKeywords
    ∧ ("viral".toList, (10 : ℚ)).1 ≠ "shares".toList :=
  ⟨c10_filter_superset_zero_score.1 _ (by decide),
   (c10_filter_superset_zero_score.2.2.1 _ (by decide)).1⟩

/-- A LinkedIn candidate: the classifier recognizes `linkedin`, but the
`platform_analysis` dict has no `linkedin` key. -/
def linkedinCandidate : Candidate :=
  ⟨"https://linkedin.com/in/x".toList, "linkedin", "google",
   "viral post".toList, [], 10⟩

/-- C5 counterexample: `linkedin` is a recognized classifier output, yet the
Basic Fallback record of a LinkedIn candidate lands in the `other` bucket —
the platform-analysis dict is initialised without a `linkedin` key, so
`dict.get` falls back to `other`. -/
theorem c5_counterexample_linkedin_bucket :
    identifyPlatform linkedinCandidate.url = some "linkedin"
    ∧ basicAnalysisFallback [linkedinCandidate]
        = { emptyBuckets with other := [basicUrlAnalysis linkedinCandidate] } := by
  exact ⟨by decide, by decide⟩

/-- C5 amended: a Basic Fallback record is appended to its platform's bucket
exactly when the platform is one of the mapping's keys — for non
instagram/youtube candidates that means `facebook`, `twitter` or `tiktok` —
and to the `other` bucket otherwise, *including* for `linkedin`, which the
classifier recognizes but the mapping has no bucket for. -/
theorem c5_amended_routing (pa : PlatformBuckets) (a : Analysis) (p : String) :
    (p = "facebook" → appendToBucket pa p a = { pa with facebook := pa.facebook ++ [a] })
    ∧ (p = "twitter" → appendToBucket pa p a = { pa with twitter := pa.twitter ++ [a] })
    ∧ (p = "tiktok" → appendToBucket pa p a = { pa with tiktok := pa.tiktok ++ [a] })
    ∧ (p ∉ (["instagram", "youtube", "facebook", "twitter", "tiktok"] : List String) →
        appendToBucket pa p a = { pa with other := pa.other ++ [a] }) := by
  refine ⟨fun h => ?_, fun h => ?_, fun h => ?_, fun h => ?_⟩
  · subst h; rfl
  · subst h; rfl
  · subst h; rfl
  · simp only [List.mem_cons, List.not_mem_nil, or_false, not_or] at h
    obtain ⟨h1, h2, h3, h4, h5⟩ := h
    simp [appendToBucket, h1, h2, h3, h4, h5]

/-- Witness for C5 amended at the concrete platform `linkedin`. -/
theorem c5_amended_routing_witness :
    appendToBucket emptyBuckets "linkedin" instaSample
      = { emptyBuckets with other := [instaSample] } :=
  (c5_amended_routing emptyBuckets instaSample "linkedin").2.2.2 (by decide)

theorem paItems_appendToBucket_length (pa : PlatformBuckets) (p : String) (a : Analysis) :
    (paItems (appendToBucket pa p a)).length = (paItems pa).length + 1 := by
  unfold appendToBucket
  split_ifs <;> simp [paItems, List.length_append] <;> omega

theorem paItems_appendToBucket_mem (pa : PlatformBuckets) (p : String) (a : Analysis)
    (x : Analysis) (hx : x ∈ paItems (appendToBucket pa p a)) :
    x ∈ paItems pa ∨ x = a := by
  unfold appendToBucket at hx
  split_ifs at hx <;>
    simp only [paItems, List.mem_append, List.mem_singleton] at hx ⊢ <;> tauto

theorem basicFallback_aux_length (cands : List Candidate) (pa : PlatformBuckets) :
    (paItems (cands.foldl (fun pa c => appendToBucket pa c.platform (basicUrlAnalysis c)) pa)).length
      = (paItems pa).length + cands.length := by
  induction cands generalizing pa with
  | nil => simp
  | cons c t ih =>
    rw [List.foldl_cons, ih, paItems_appendToBucket_length]
    simp only [List.length_cons]
    omega

theorem basicFallback_aux_mem (cands : List Candidate) (pa : PlatformBuckets) (x : Analysis)
    (hx : x ∈ paItems (cands.foldl (fun pa c => appendToBucket pa c.platform (basicUrlAnalysis c)) pa)) :
    x ∈ paItems pa ∨ ∃ c ∈ cands, x = basicUrlAnalysis c := by
  induction cands generalizing pa with
  | nil => exact Or.inl hx
  | cons c t ih =>
    rw [List.foldl_cons] at hx
    rcases ih _ hx with h | h
    · rcases paItems_appendToBucket_mem _ _ _ _ h with h' | h'
      · exact Or.inl h'
      · exact Or.inr ⟨c, List.mem_cons_self c t, h'⟩
    · obtain ⟨c', hc', hx'⟩ := h
      exact Or.inr ⟨c', List.mem_cons_of_mem c hc', hx'⟩

/-- C6: with the scraping dependency unavailable every candidate — whatever
its platform — yields exactly one Basic Fallback record, and each such record
carries `analysis_method = "basic_fallback"` and the candidate's
`initial_score` as `viral_score`. -/
theorem c6_fallback_records (cands : List Candidate) (ir : Candidate → Option Analysis) :
    analyzeWithInstascrape false ir cands = basicAnalysisFallback cands
    ∧ (paItems (basicAnalysisFallback cands)).length = cands.length
    ∧ (∀ x ∈ paItems (basicAnalysisFallback cands), ∃ c ∈ cands, x = basicUrlAnalysis c)
    ∧ (∀ c : Candidate, (basicUrlAnalysis c).analysis_method = "basic_fallback"
        ∧ (basicUrlAnalysis c).viral_score = c.initial_score) := by
  refine ⟨rfl, ?_, ?_, fun c => ⟨rfl, rfl⟩⟩
  · unfold basicAnalysisFallback
    rw [basicFallback_aux_length]
    simp [paItems, emptyBuckets]
  · intro x hx
    unfold basicAnalysisFallback at hx
    rcases basicFallback_aux_mem _ _ _ hx with h | h
    · simp [paItems, emptyBuckets] at h
    · exact h

/-- Witness for C6 at a concrete singleton candidate list. -/
theorem c6_fallback_records_witness :
    ∃ c ∈ [linkedinCandidate], basicUrlAnalysis linkedinCandidate = basicUrlAnalysis c :=
  (c6_fallback_records [linkedinCandidate] (fun _ => none)).2.2.1 _ (by decide)

theorem length_insertDesc (x : Analysis) (l : List Analysis) :
    (insertDesc x l).length = l.length + 1 := by
  induction l with
  | nil => rfl
  | cons y ys ih =>
    unfold insertDesc
    split_ifs <;> simp [ih, List.length_cons]

theorem length_sortDesc (l : List Analysis) : (sortDesc l).length = l.length := by
  induction l with
  | nil => rfl
  | cons x xs ih => simp [sortDesc, length_insertDesc, ih]

theorem insertDesc_headOpt (x : Analysis) (l : List Analysis) :
    (insertDesc x l).head? = some x ∨ (insertDesc x l).head? = l.head? := by
  cases l with
  | nil => exact Or.inl rfl
  | cons y ys =>
    unfold insertDesc
    split_ifs <;> simp

theorem chain_insertDesc (x : Analysis) (l : List Analysis)
    (h : List.Chain' (fun a b : Analysis => b.viral_score ≤ a.viral_score) l) :
    List.Chain' (fun a b : Analysis => b.viral_score ≤ a.viral_score) (insertDesc x l) := by
  induction l with
  | nil => simp [insertDesc]
  | cons y ys ih =>
    rw [List.chain'_cons'] at h
    unfold insertDesc
    split_ifs with hxy
    · rw [List.chain'_cons]
      exact ⟨hxy, List.chain'_cons'.mpr h⟩
    · rw [List.chain'_cons']
      refine ⟨?_, ih h.2⟩
      intro z hz
      rcases insertDesc_headOpt x ys with he | he
      · rw [he] at hz
        simp only [Option.mem_def, Option.some_inj] at hz
        subst hz
        exact le_of_not_le hxy
      · rw [he] at hz
        exact h.1 z hz

theorem chain_sortDesc (l : List Analysis) :
    List.Chain' (fun a b : Analysis => b.viral_score ≤ a.viral_score) (sortDesc l) := by
  induction l with
  | nil => simp [sortDesc]
  | cons x xs ih => exact chain_insertDesc x _ ih

theorem filter_insertDesc (x : Analysis) (l : List Analysis) (s : ℚ) :
    (insertDesc x l).filter (fun a => decide (a.viral_score = s))
      = if x.viral_score = s then
          x :: l.filter (fun a => decide (a.viral_score = s))
        else l.filter (fun a => decide (a.viral_score = s)) := by
  induction l with
  | nil =>
    by_cases hx : x.viral_score = s <;> simp [insertDesc, hx]
  | cons y ys ih =>
    unfold insertDesc
    by_cases hxy : y.viral_score ≤ x.viral_score
    · rw [if_pos hxy]
      by_cases hx : x.viral_score = s <;> simp [List.filter_cons, hx]
    · rw [if_neg hxy]
      by_cases hx : x.viral_score = s
      · have hy : ¬ (y.viral_score = s) := by
          intro h'
          exact hxy (by rw [h', hx])
        simp [List.filter_cons, hy, ih, hx]
      · by_cases hy : y.viral_score = s <;> simp [List.filter_cons, hy, ih, hx]

theorem filter_sortDesc (l : List Analysis) (s : ℚ) :
    (sortDesc l).filter (fun a => decide (a.viral_score = s))
      = l.filter (fun a => decide (a.viral_score = s)) := by
  induction l with
  | nil => rfl
  | cons x xs ih =>
    rw [sortDesc, filter_insertDesc]
    by_cases hx : x.viral_score = s <;> simp [List.filter_cons, hx, ih]

/-- C8: top performers are the flattened analyses stably sorted by
descending `viral_score` and truncated: the output is non-increasing in
score, ties keep encounter order (filtering the sorted list at any score
value gives exactly the original filtered sequence), the length is
`min top_n total`, hence at most both, and `top_n` defaults to 10. -/
theorem c8_top_performers (pa : PlatformBuckets) (n : Nat) :
    getTopPerformers pa n = (sortDesc (paItems pa)).take n
    ∧ List.Chain' (fun a b : Analysis => b.viral_score ≤ a.viral_score) (getTopPerformers pa n)
    ∧ (∀ s : ℚ, (sortDesc (paItems pa)).filter (fun a => decide (a.viral_score = s))
        = (paItems pa).filter (fun a => decide (a.viral_score = s)))
    ∧ (getTopPerformers pa n).length = min n (paItems pa).length
    ∧ (getTopPerformers pa n).length ≤ min n (paItems pa).length
    ∧ getTopPerformers pa = getTopPerformers pa 10 := by
  have hlen : (getTopPerformers pa n).length = min n (paItems pa).length := by
    unfold getTopPerformers
    rw [List.length_take, length_sortDesc]
  exact ⟨rfl, (chain_sortDesc (paItems pa)).take n, fun s => filter_sortDesc _ s,
    hlen, le_of_eq hlen, rfl⟩

/-- C9: the top-level pipeline always returns a result: when all phases
succeed the result has `success = true` and the save is attempted; when a
phase raises, the exception text lands in the error field, `success` is
false, and the save is never attempted. -/
theorem c9_pipeline_error_handling (s1 : Except String (List Candidate))
    (s2 : List Candidate → Except String PlatformBuckets)
    (s3 : PlatformBuckets → Except String Unit) :
    ((analyzePipeline s1 s2 s3).saveAttempted = (analyzePipeline s1 s2 s3).success)
    ∧ ((analyzePipeline s1 s2 s3).success = true ∧ (analyzePipeline s1 s2 s3).error = none
        ∧ (analyzePipeline s1 s2 s3).saveAttempted = true
      ∨ ∃ e, (analyzePipeline s1 s2 s3).success = false
          ∧ (analyzePipeline s1 s2 s3).error = some e
          ∧ (analyzePipeline s1 s2 s3).saveAttempted = false)
    ∧ (∀ e, s1 = .error e → analyzePipeline s1 s2 s3 = ⟨false, some e, false⟩)
    ∧ (∀ cands e, s1 = .ok cands → s2 cands = .error e →
        analyzePipeline s1 s2 s3 = ⟨false, some e, false⟩)
    ∧ (∀ cands buckets e, s1 = .ok cands → s2 cands = .ok buckets → s3 buckets = .error e →
        analyzePipeline s1 s2 s3 = ⟨false, some e, false⟩)
    ∧ (∀ cands buckets, s1 = .ok cands → s2 cands = .ok buckets → s3 buckets = .ok () →
        analyzePipeline s1 s2 s3 = ⟨true, none, true⟩) := by
  refine ⟨?_, ?_, ?_, ?_, ?_, ?_⟩
  · rcases s1 with e | cands
    · rfl
    · rcases h2 : s2 cands with e | buckets
      · simp [analyzePipeline, h2]
      · rcases h3 : s3 buckets with e | u <;> simp [analyzePipeline, h2, h3]
  · rcases s1 with e | cands
    · exact Or.inr ⟨e, rfl, rfl, rfl⟩
    · rcases h2 : s2 cands with e | buckets
      · exact Or.inr ⟨e, by simp [analyzePipeline, h2], by simp [analyzePipeline, h2],
          by simp [analyzePipeline, h2]⟩
      · rcases h3 : s3 buckets with e | u
        · exact Or.inr ⟨e, by simp [analyzePipeline, h2, h3], by simp [analyzePipeline, h2, h3],
            by simp [analyzePipeline, h2, h3]⟩
        · exact Or.inl ⟨by simp [analyzePipeline, h2, h3], by simp [analyzePipeline, h2, h3],
            by simp [analyzePipeline, h2, h3]⟩
  · intro e he
    subst he
    rfl
  · intro cands e h1 hb
    subst h1
    simp [analyzePipeline, hb]
  · intro cands buckets e h1 hb he
    subst h1
    simp [analyzePipeline, hb, he]
  · intro cands buckets h1 hb hu
    subst h1
    simp [analyzePipeline, hb, hu]


/-- Witness for C9 at concrete steps: a failing identification phase yields
`success = false`, the message, and no save. -/
theorem c9_pipeline_error_handling_witness :
    analyzePipeline (.error "boom") (fun _ => .ok emptyBuckets) (fun _ => .ok ())
      = ⟨false, some "boom", false⟩ :=
  (c9_pipeline_error_handling (.error "boom") (fun _ => .ok emptyBuckets)
    (fun _ => .ok ())).2.2.1 "boom" rfl

end ViralAnalyzer
